import Mathlib

/-!
Verification of `src/js/src/MapEvents.js`.

The module exports a constant object `mapEventTypes` with the single entry
`MAP_DOWNLOAD_ERROR: 'MAP_DOWNLOAD_ERROR'`, and a class `MapEvents` with one
static method `downloadError(errorMessage)` returning the object literal
`{ errorMessage }`.
-/

/-- Values of the JavaScript runtime that a caller may pass to
`MapEvents.downloadError`: `undefined`, `null`, booleans, numbers, strings,
or a reference to a heap object.  The numeric payload is modelled as `Int`;
none of the properties below depends on numeric semantics. -/
inductive JSValue where
  | undef : JSValue
  | null : JSValue
  | bool : Bool → JSValue
  | num : Int → JSValue
  | str : String → JSValue
  | objRef : Nat → JSValue
deriving DecidableEq, Repr

/-- The shape of the object literal `{ errorMessage }` built by
`MapEvents.downloadError`: a record with exactly one field `errorMessage`.
The field type is a parameter because the JS function body is parametric in
the argument's runtime type. -/
structure DownloadErrorPayload (α : Type) where
  errorMessage : α
deriving DecidableEq, Repr

namespace MapEvents

/-- `MapEvents.downloadError(errorMessage) { return { errorMessage } }`
from `MapEvents.js`, lines 10-12. -/
def downloadError (errorMessage : α) : DownloadErrorPayload α :=
  { errorMessage := errorMessage }

end MapEvents

/-- Calling `MapEvents.downloadError()` with the argument absent: JavaScript
binds the parameter `errorMessage` to `undefined`, and the body runs
unchanged. -/
def downloadErrorNoArg : DownloadErrorPayload JSValue :=
  MapEvents.downloadError JSValue.undef

/-- The shape of the exported constant `mapEventTypes`: an object with the
single property `MAP_DOWNLOAD_ERROR`. -/
structure MapEventTypes where
  MAP_DOWNLOAD_ERROR : String
deriving DecidableEq, Repr

/-- `export const mapEventTypes = { MAP_DOWNLOAD_ERROR: 'MAP_DOWNLOAD_ERROR' }`
from `MapEvents.js`, lines 5-7. -/
def mapEventTypes : MapEventTypes :=
  { MAP_DOWNLOAD_ERROR := "MAP_DOWNLOAD_ERROR" }

/-- The same constant viewed as the list of its (key, value) entries, in
source order; the object literal has exactly this one property. -/
def mapEventTypesEntries : List (String × String) :=
  [("MAP_DOWNLOAD_ERROR", mapEventTypes.MAP_DOWNLOAD_ERROR)]

/-- A JavaScript heap restricted to the objects this module allocates:
a list of payload records, addressed by position. -/
structure Heap (α : Type) where
  cells : List (DownloadErrorPayload α)
deriving Repr

/-- Allocation of a fresh object: the new object is appended at the end of
the heap and its (previously unused) address is returned. -/
def Heap.alloc (h : Heap α) (p : DownloadErrorPayload α) : Nat × Heap α :=
  (h.cells.length, ⟨h.cells ++ [p]⟩)

/-- One call `MapEvents.downloadError(v)` under JavaScript allocation
semantics: evaluating the object literal `{ errorMessage }` allocates a new
object on the heap and the call returns its reference. -/
def downloadErrorCall (v : α) (h : Heap α) : Nat × Heap α :=
  h.alloc (MapEvents.downloadError v)

/-- The mutable bindings of the module `MapEvents.js`: only the constant
`mapEventTypes` (the class declaration carries no mutable data). -/
structure ModuleState where
  catalog : MapEventTypes
deriving DecidableEq, Repr

/-- Module state at load time. -/
def initialModuleState : ModuleState :=
  { catalog := mapEventTypes }

/-- Reading `mapEventTypes.MAP_DOWNLOAD_ERROR` as a state-passing operation:
a property read returns the value and leaves the module bindings untouched. -/
def readMapDownloadError (st : ModuleState) : String × ModuleState :=
  (st.catalog.MAP_DOWNLOAD_ERROR, st)

/-- A call of `MapEvents.downloadError` as a state-passing operation on the
module bindings: the body only builds and returns an object literal, so the
state component is passed through unchanged. -/
def moduleDownloadError (v : α) (st : ModuleState) :
    DownloadErrorPayload α × ModuleState :=
  (MapEvents.downloadError v, st)

/-- Any finite sequence of `MapEvents.downloadError` calls, threaded through
the module state. -/
def runCalls (vs : List α) (st : ModuleState) : ModuleState :=
  vs.foldl (fun s v => (moduleDownloadError v s).2) st

/-- C1: for every string `s`, `MapEvents.downloadError s` is the record with
exactly one field `errorMessage` whose value equals `s`; in particular
`downloadError "network timeout"` is `{ errorMessage := "network timeout" }`. -/
theorem downloadError_single_field_eq :
    (∀ s : String, MapEvents.downloadError s = { errorMessage := s }) ∧
    MapEvents.downloadError "network timeout" =
      ({ errorMessage := "network timeout" } : DownloadErrorPayload String) := by
  exact ⟨fun s => rfl, rfl⟩

/-- C2: the catalog entry `mapEventTypes.MAP_DOWNLOAD_ERROR` equals the
literal string `"MAP_DOWNLOAD_ERROR"`. -/
theorem mapEventTypes_MAP_DOWNLOAD_ERROR_eq :
    mapEventTypes.MAP_DOWNLOAD_ERROR = "MAP_DOWNLOAD_ERROR" := rfl

/-- C3: two separate calls of `MapEvents.downloadError` return distinct
(non-aliased) objects even for equal arguments, and each result is a fresh
address distinct from every address already allocated before the call. -/
theorem downloadError_fresh_allocation (s1 s2 : α) (h : Heap α) :
    (downloadErrorCall s1 h).1 ≠
      (downloadErrorCall s2 (downloadErrorCall s1 h).2).1 ∧
    (∀ a, a < h.cells.length →
      (downloadErrorCall s1 h).1 ≠ a ∧
      (downloadErrorCall s2 (downloadErrorCall s1 h).2).1 ≠ a) := by
  simp only [downloadErrorCall, Heap.alloc, List.length_append,
    List.length_singleton]
  refine ⟨by omega, fun a ha => ⟨by omega, by omega⟩⟩

/-- C4: `MapEvents.downloadError` is total and cannot fail: for every input
it returns the payload record normally, and `downloadError ""` returns
`{ errorMessage := "" }`. -/
theorem downloadError_total_no_error :
    (∀ s : String, MapEvents.downloadError s = { errorMessage := s }) ∧
    MapEvents.downloadError "" =
      ({ errorMessage := "" } : DownloadErrorPayload String) := by
  exact ⟨fun s => rfl, rfl⟩

/-- C5: the catalog is read-only: two sequential reads of
`mapEventTypes.MAP_DOWNLOAD_ERROR` yield identical values, reading leaves
the module state unchanged, and no operation of the module mutates the
mapping. -/
theorem mapEventTypes_read_only (st : ModuleState) :
    (readMapDownloadError st).1 =
      (readMapDownloadError (readMapDownloadError st).2).1 ∧
    (readMapDownloadError st).2 = st ∧
    (∀ (v : JSValue) (st' : ModuleState),
      (moduleDownloadError v st').2.catalog = st'.catalog) := by
  exact ⟨rfl, rfl, fun v st' => rfl⟩

/-- C6: the catalog has exactly one entry, each key maps to one value, the
values are pairwise distinct across the catalog, and the value of
`MAP_DOWNLOAD_ERROR` equals the key name itself. -/
theorem mapEventTypes_catalog_invariants :
    mapEventTypesEntries.length = 1 ∧
    (mapEventTypesEntries.map Prod.snd).Nodup ∧
    (∀ p ∈ mapEventTypesEntries, p.2 = p.1) ∧
    mapEventTypes.MAP_DOWNLOAD_ERROR = "MAP_DOWNLOAD_ERROR" := by
  refine ⟨rfl, by simp [mapEventTypesEntries], ?_, rfl⟩
  intro p hp
  simp only [mapEventTypesEntries, List.mem_singleton] at hp
  subst hp
  rfl

/-- C7: `MapEvents.downloadError` is deterministic: equal inputs give
structurally equal payloads with the same single-field shape, and in
particular equal `errorMessage` fields. -/
theorem downloadError_deterministic (s1 s2 : String) (h : s1 = s2) :
    MapEvents.downloadError s1 = MapEvents.downloadError s2 ∧
    (MapEvents.downloadError s1).errorMessage =
      (MapEvents.downloadError s2).errorMessage := by
  subst h
  exact ⟨rfl, rfl⟩

/-- Witness for C7 at the concrete input `"x"`. -/
theorem downloadError_deterministic_witness :
    MapEvents.downloadError "x" = MapEvents.downloadError "x" ∧
    (MapEvents.downloadError "x").errorMessage =
      (MapEvents.downloadError "x").errorMessage :=
  downloadError_deterministic "x" "x" rfl

/-- C8: `MapEvents.downloadError` performs no validation, conversion or
trimming: every runtime value, the empty string and `undefined` included,
appears verbatim as the `errorMessage` field, and a call with the argument
absent yields `{ errorMessage := undefined }`. -/
theorem downloadError_verbatim_no_validation :
    (∀ v : JSValue, (MapEvents.downloadError v).errorMessage = v) ∧
    (MapEvents.downloadError (JSValue.str "")).errorMessage = JSValue.str "" ∧
    downloadErrorNoArg = { errorMessage := JSValue.undef } := by
  exact ⟨fun v => rfl, rfl, rfl⟩

/-- C9: the module is stateless: any finite sequence of
`MapEvents.downloadError` calls leaves the module state, in particular the
catalog and its `MAP_DOWNLOAD_ERROR` entry, unchanged. -/
theorem downloadError_stateless (vs : List JSValue) (st : ModuleState) :
    runCalls vs st = st ∧
    (runCalls vs st).catalog.MAP_DOWNLOAD_ERROR =
      st.catalog.MAP_DOWNLOAD_ERROR := by
  have h : runCalls vs st = st := by
    induction vs generalizing st with
    | nil => rfl
    | cons v vs ih =>
        simp only [runCalls, List.foldl, moduleDownloadError]
        exact ih st
  exact ⟨h, by rw [h]⟩

/-- C10: `MapEvents.downloadError` is total over argument values of every
runtime type and stores exactly the argument passed: for every type `α` and
value `v : α`, the result is `{ errorMessage := v }` with the field equal to
`v` itself. -/
theorem downloadError_total_all_types (α : Type) (v : α) :
    MapEvents.downloadError v = { errorMessage := v } ∧
    (MapEvents.downloadError v).errorMessage = v := by
  exact ⟨rfl, rfl⟩
